import Mathlib

/-!
Verification development for the CareerSuite.Ai Google Apps Script backend.

The definitions below are a shallow embedding of the email-classification and
application-reconciliation engine:
  * status constants and keyword lists from the template script (part_001);
  * the body-keyword status detector parseBodyForStatus (part_001, lines 568-601);
  * the reconciliation merge of _trackerDataHandler (Main.js, lines 293-407);
  * the stale sweep markStaleApplicationsAsRejected (Main.js, lines 452-500);
  * the Gemini extractor result shape of callGemini_forApplicationDetails (part_000);
  * the per-thread outcome bookkeeping of both engine versions and the label
    transition of applyFinalLabels (part_001, lines 605-686).

Modelling conventions: JavaScript strings are Lean String; spreadsheet date
cells are Option Int (a timestamp in days; none stands for an empty cell or a
value that new Date(...) parses to Invalid Date, whose NaN comparisons are
always false); a JS falsy-string check (s ? ... : ...) is (s = "") on String.
-/

namespace CareerSuite

/-- Apostrophe character, used inside keyword phrases. -/
def apos : String := (Char.ofNat 39).toString

-- Status strings, from src/unnamed/part_001 lines 95-101.
def DEFAULT_STATUS : String := "Applied"
def REJECTED_STATUS : String := "Rejected"
def ACCEPTED_STATUS : String := "Offer/Accepted"
def INTERVIEW_STATUS : String := "Interview Scheduled"
def ASSESSMENT_STATUS : String := "Assessment/Screening"
def MANUAL_REVIEW_NEEDED : String := "N/A - Manual Review Needed"
def DEFAULT_PLATFORM : String := "Other"
def UPDATE_OTHER : String := "Update/Other"

/-- Modelled from the spec: OFFER_STATUS is declared in a configuration file that
is not under src/ (Main.js line 366 and the Gemini prompt reference it). The
spec fixes the closed enum and section 8 names the offer-level status string
"Offer/Accepted", which is also the string in the v1 FINAL_STATUSES set in
src/Career_Suite_AI_v1-main/auto_reject_stale_applications.gs. -/
def OFFER_STATUS : String := "Offer/Accepted"

/-- Modelled from the spec: APPLICATION_VIEWED_STATUS is declared in a
configuration file that is not under src/; the spec names the enum member
ApplicationViewed. -/
def APPLICATION_VIEWED_STATUS : String := "Application Viewed"

-- Keyword lists, from src/unnamed/part_001 lines 105-108, in source order.
def REJECTION_KEYWORDS : List String :=
  ["unfortunately", "regret to inform", "not moving forward", "will not be proceeding",
   "won" ++ apos ++ "t be moving forward", "application was unsuccessful",
   "you have not been selected", "did not select you", "weren" ++ apos ++ "t selected",
   "decline to move forward", "unable to offer you the position", "will not be advancing",
   "decision has been made to not proceed", "will not be moving your application forward",
   "application will not be given further consideration", "selected other candidate",
   "pursuing other applicant", "other candidates", "better aligned candidates",
   "decided to proceed with other applicants", "have chosen another candidate",
   "move forward with another candidate", "not select you for further consideration",
   "qualifications more closely match", "other applicants were a better match",
   "focused on candidates whose experiences more closely align", "position has been filled",
   "filled the role", "position is no longer available", "position is now closed",
   "role has been filled", "after careful consideration",
   "thank you for your interest, however", "wish you all the best",
   "wish you success in your job search", "encourage you to apply for future roles",
   "keep your resume on file", "keep your profile on file", "best of luck", "unable"]

def ACCEPTANCE_KEYWORDS : List String :=
  ["pleased to offer", "offer of employment", "job offer", "extend an offer",
   "thrilled to offer", "happy to extend an offer", "extend a formal offer",
   "offer details", "letter of offer", "official offer letter", "pleased to extend",
   "formal offer of employment", "conditional offer", "details on your offer",
   "congratulations", "welcome aboard", "excited to have you join", "welcome to the team",
   "next steps include your offer", "finalizing the offer details",
   "please find your offer attached", "was accepted", "next steps in the offer process",
   "compensation package", "offer includes details on compensation",
   "background check initiated", "onboarding documents", "start date"]

def INTERVIEW_KEYWORDS : List String :=
  ["invitation to interview", "schedule an interview", "interview request",
   "invited to interview", "like to schedule a time", "schedule time to chat",
   "schedule a call", "schedule your interview", "set up an interview",
   "book an interview", "interview coordination", "interview availability",
   "confirm a time", "suggest some times", "calendar invitation", "booking link",
   "use this link to schedule", "speak with you about your application", "speak further",
   "discussion regarding your application", "chat about your background",
   "follow-up conversation", "meet with", "team would like to meet you",
   "invited to meet the team", "availability for a conversation", "preliminary interview",
   "speak with the team", "meet the hiring manager", "next step is an interview",
   "next round", "proceed with interview process", "interview loop",
   "proceeding to the next stage", "moving to the interview phase",
   "advancing your application", "introductory call", "phone screen", "video interview",
   "virtual interview", "technical interview", "behavioral interview", "panel interview",
   "hiring manager interview", "onsite interview"]

def ASSESSMENT_KEYWORDS : List String :=
  ["assessment", "coding challenge", "online test", "screening task", "technical screen",
   "assignment", "coding exercise", "technical evaluation", "complete an assessment",
   "take-home task", "problem-solving exercise", "practical test", "technical assignment",
   "skills assessment", "skills test", "candidate assessment test", "online assessment",
   "coding assessment", "technical task", "complete this assignment",
   "take-home assignment", "case study", "required to complete", "invite you to take",
   "hackerrank", "codility", "next step is a test", "homework assignment",
   "part of our process involves a"]

/-- Code points of the punctuation class removed by parseBodyForStatus
(part_001 line 577): . , ! ? ; : ( ) [ ] brace brace apostrophe quote
curly quotes, hyphen, en dash, em dash, and symbols. -/
def PUNCT_CODES : List Nat :=
  [46, 44, 33, 63, 59, 58, 40, 41, 91, 93, 123, 125, 39, 34, 8220, 8221, 8216, 8217,
   45, 8211, 8212, 64, 35, 36, 37, 94, 38, 42, 43, 61, 60, 62]

def isPunct (c : Char) : Bool := PUNCT_CODES.contains c.toNat

/-- Substring test on character lists (JS String.prototype.includes). -/
def hasSubstring : List Char → List Char → Bool
  | needle, [] => needle.isEmpty
  | needle, c :: t => needle.isPrefixOf (c :: t) || hasSubstring needle t

def isSuffixList (suf l : List Char) : Bool := suf.reverse.isPrefixOf l.reverse

def spaceChar : Char := Char.ofNat 32

def isWsChar (c : Char) : Bool := c.isWhitespace

/-- Split into maximal whitespace-free words; cur accumulates the current word
in reverse. Joining the words with single spaces is the JS replace of runs of
whitespace by one space followed by trim. -/
def splitWordsAux : List Char → List Char → List (List Char)
  | [], cur => if cur.isEmpty then [] else [cur.reverse]
  | c :: t, cur =>
    if isWsChar c then
      if cur.isEmpty then splitWordsAux t [] else cur.reverse :: splitWordsAux t []
    else splitWordsAux t (c :: cur)

def joinWords : List (List Char) → List Char
  | [] => []
  | [w] => w
  | w :: ws => w ++ spaceChar :: joinWords ws

/-- The body normalization of parseBodyForStatus (part_001 lines 575-578) as a
character list: lowercase, punctuation to spaces, whitespace runs collapsed to
single spaces, ends trimmed. -/
def normalizeBody (s : String) : List Char :=
  let depunct := s.data.map (fun c =>
    let d := c.toLower
    if isPunct d then spaceChar else d)
  joinWords (splitWordsAux depunct [])

/-- One keyword test of parseBodyForStatus (part_001 line 581 and friends):
the phrase surrounded by spaces occurs, or it starts or ends the body. -/
def keywordHit (bodyLower : List Char) (kw : String) : Bool :=
  hasSubstring (spaceChar :: kw.data ++ [spaceChar]) bodyLower ||
  (kw.data ++ [spaceChar]).isPrefixOf bodyLower ||
  isSuffixList (spaceChar :: kw.data) bodyLower

/-- parseBodyForStatus (part_001 lines 568-601). A null body is modelled as the
empty string, which fails the length gate like null does. -/
def parseBodyForStatus (plainBody : String) : Option String :=
  if plainBody.length < 10 then none
  else
    let bodyLower := normalizeBody plainBody
    if ACCEPTANCE_KEYWORDS.any (keywordHit bodyLower) then some ACCEPTED_STATUS
    else if INTERVIEW_KEYWORDS.any (keywordHit bodyLower) then some INTERVIEW_STATUS
    else if ASSESSMENT_KEYWORDS.any (keywordHit bodyLower) then some ASSESSMENT_STATUS
    else if REJECTION_KEYWORDS.any (keywordHit bodyLower) then some REJECTED_STATUS
    else none

/-- The four keyword lists paired with the status each one yields, in the fixed
precedence order the spec states: acceptance, interview, assessment, rejection. -/
def orderedKeywordLists : List (List String × String) :=
  [(ACCEPTANCE_KEYWORDS, ACCEPTED_STATUS), (INTERVIEW_KEYWORDS, INTERVIEW_STATUS),
   (ASSESSMENT_KEYWORDS, ASSESSMENT_STATUS), (REJECTION_KEYWORDS, REJECTED_STATUS)]

/-- Written from the words of the spec for comparison with parseBodyForStatus:
return the status of the first list containing a matching phrase, none if no
list matches. -/
def firstMatchingStatus (bodyLower : List Char) : Option String :=
  (orderedKeywordLists.find? (fun p => p.1.any (keywordHit bodyLower))).map (fun p => p.2)

/-- Modelled from the spec: STATUS_HIERARCHY is declared in a configuration file
that is not under src/ (Main.js lines 364-373 read it). The spec fixes a total
order over the closed enum, Interview at rank 4, and rank(Rejected) below
rank(Interview); unknown strings fall back to 0 through the ?? 0 in Main.js. -/
def STATUS_HIERARCHY (s : String) : Option Int :=
  if s = MANUAL_REVIEW_NEEDED then some (-2)
  else if s = UPDATE_OTHER then some (-1)
  else if s = REJECTED_STATUS then some 0
  else if s = DEFAULT_STATUS then some 1
  else if s = APPLICATION_VIEWED_STATUS then some 2
  else if s = ASSESSMENT_STATUS then some 3
  else if s = INTERVIEW_STATUS then some 4
  else if s = OFFER_STATUS then some 5
  else none

/-- STATUS_HIERARCHY[s] ?? 0 (Main.js lines 364, 365, 372, 373). -/
def rank (s : String) : Int := (STATUS_HIERARCHY s).getD 0

/-- One spreadsheet row of the Applications tab, with the semantic fields the
engine reads and writes (spec section 3, TrackedApplication; column positions
are part_001 lines 80-90 plus the peak-status column of Main.js). Date cells
are Option Int; text cells are String, the empty string standing for an empty
cell. -/
structure TrackedRow where
  processedTimestamp : Option Int
  emailDate : Option Int
  platform : String
  company : String
  title : String
  status : String
  peakStatus : String
  lastUpdateDate : Option Int
  subject : String
  link : String
  emailId : String
deriving Repr, DecidableEq

def emptyRow : TrackedRow :=
  { processedTimestamp := none, emailDate := none, platform := "", company := "",
    title := "", status := "", peakStatus := "", lastUpdateDate := none,
    subject := "", link := "", emailId := "" }

/-- The per-message inputs _trackerDataHandler reads from the message and the
clock: message id, subject, plain body, email date, and the current time. -/
structure MsgInfo where
  msgId : String
  threadId : String
  subject : String
  plainBody : String
  emailDate : Int
  now : Int
deriving Repr, DecidableEq

def emailPermaLink (msgId : String) : String :=
  "https://mail.google.com/mail/u/0/#inbox/" ++ msgId

/-- JS String.prototype.trim on the character-list view. -/
def jsTrim (s : String) : String :=
  String.mk (((s.data.dropWhile isWsChar).reverse.dropWhile isWsChar).reverse)

/-- JS String.prototype.toLowerCase on the character-list view. -/
def jsToLower (s : String) : String := String.mk (s.data.map Char.toLower)

/-- String(cell).trim() || DEFAULT_STATUS (Main.js line 363). -/
def statInSheetOf (statusCell : String) : String :=
  if jsTrim statusCell = "" then DEFAULT_STATUS else jsTrim statusCell

/-- The status-overwrite condition of Main.js line 366:
newRank >= curRank, or the incoming status is Rejected or Offer. -/
def shouldApplyStatus (statusCell finalStatusToSet : String) : Prop :=
  rank (statInSheetOf statusCell) ≤ rank finalStatusToSet ∨
  finalStatusToSet = REJECTED_STATUS ∨ finalStatusToSet = OFFER_STATUS

instance (c f : String) : Decidable (shouldApplyStatus c f) :=
  inferInstanceAs (Decidable (rank (statInSheetOf c) ≤ rank f ∨
    f = REJECTED_STATUS ∨ f = OFFER_STATUS))

/-- The update branch of _trackerDataHandler (Main.js lines 355-376): copy the
row, overwrite the administrative fields with this message, apply the incoming
status under the rank/override rule, then raise the peak-status cell when the
resulting status outranks the cached peak (peakCached || statInSheet). -/
def updateExistingRow (row : TrackedRow) (peakCached : String) (msg : MsgInfo)
    (finalStatusToSet : String) : TrackedRow :=
  let statInSheet := statInSheetOf row.status
  let statusAfter :=
    if shouldApplyStatus row.status finalStatusToSet then finalStatusToSet else row.status
  let peakStat := if peakCached = "" then statInSheet else peakCached
  let peakAfter := if rank peakStat < rank statusAfter then statusAfter else row.peakStatus
  { row with
      processedTimestamp := some msg.now,
      lastUpdateDate := some msg.emailDate,
      subject := msg.subject,
      link := emailPermaLink msg.msgId,
      emailId := msg.msgId,
      status := statusAfter,
      peakStatus := peakAfter }

/-- The append branch of _trackerDataHandler (Main.js lines 388-406). -/
def appendedRow (msg : MsgInfo) (companyName jobTitle finalStatusToSet : String) :
    TrackedRow :=
  { emptyRow with
      processedTimestamp := some msg.now,
      emailDate := some msg.emailDate,
      platform := DEFAULT_PLATFORM,
      company := companyName,
      title := jobTitle,
      status := finalStatusToSet,
      peakStatus := finalStatusToSet,
      lastUpdateDate := some msg.emailDate,
      subject := msg.subject,
      link := emailPermaLink msg.msgId,
      emailId := msg.msgId }

/-- Modelled from the spec: FINAL_STATUSES_FOR_STALE_CHECK is declared in a
configuration file that is not under src/ (Main.js line 484 reads it). The spec
calls it a fixed set of terminal/rejected/accepted/withdrawn-equivalent
statuses; instantiated with the FINAL_STATUSES set of
src/Career_Suite_AI_v1-main/auto_reject_stale_applications.gs lines 53-60. -/
def FINAL_STATUSES_FOR_STALE_CHECK : List String :=
  [REJECTED_STATUS, "Offer/Accepted", "Withdrawn", "Hired", "Offer Declined"]

/-- WEEKS_THRESHOLD, src/Career_Suite_AI_v1-main/auto_reject_stale_applications.gs
line 44 (the v2.5 README records the same default of 7). -/
def WEEKS_THRESHOLD : Int := 7

/-- The per-row stale condition of Main.js line 484. The date cell is Option
Int: none models an empty cell or an unparseable value, whose NaN comparison
with the threshold is false in JS. -/
def staleCondition (staleThreshold : Int) (row : TrackedRow) : Bool :=
  !(FINAL_STATUSES_FOR_STALE_CHECK.contains row.status) &&
  (match row.lastUpdateDate with
   | some t => decide (t < staleThreshold)
   | none => false)

/-- The in-place rewrite of one stale row (Main.js lines 484-487). -/
def markStaleRow (now staleThreshold : Int) (row : TrackedRow) : TrackedRow :=
  if staleCondition staleThreshold row then
    { row with status := REJECTED_STATUS, lastUpdateDate := some now }
  else row

/-- markStaleApplicationsAsRejected (Main.js lines 452-500) restricted to the
data rows (the loop starts at index 1, below the header). Time is in days, so
the threshold of lines 477-478 is now minus 7 times WEEKS_THRESHOLD days. -/
def markStaleApplicationsAsRejected (now : Int) (rows : List TrackedRow) :
    List TrackedRow :=
  rows.map (markStaleRow now (now - WEEKS_THRESHOLD * 7))

/-- The record shape callGemini_forApplicationDetails hands back when it does
not return null (part_000): either an error-tagged object or the three parsed
fields. A missing JS field reads as undefined, modelled by the empty string. -/
structure GRec where
  company : String
  title : String
  status : String
  error : Option String
deriving Repr, DecidableEq

/-- One entry of the in-memory companyIndex (built in _processingEngine lines
192-209; fresh-append entries of line 251 carry row -1 and empty text fields). -/
structure IndexEntry where
  row : Int
  rowData : TrackedRow
  title : String
  status : String
  peakStatus : String
deriving Repr, DecidableEq

/-- The reduce accumulator seed of Main.js line 348. -/
def noEntry : IndexEntry :=
  { row := -1, rowData := emptyRow, title := "", status := "", peakStatus := "" }

/-- potentialMatches.reduce keeping the entry with the strictly larger row
number, seeded with row -1 (Main.js line 348). -/
def maxByRow (entries : List IndexEntry) : IndexEntry :=
  entries.foldl (fun latest cur => if latest.row < cur.row then cur else latest) noEntry

/-- Field resolution of _trackerDataHandler (Main.js lines 306-335): company,
title and status from the Gemini result when it is present and not
error-tagged (with the body-keyword enhancer for ambiguous statuses),
otherwise from the regex fallback chain extractCompanyAndTitle (whose result
is a parameter here) plus the body-keyword detector. -/
def trackerResolve (g : Option GRec) (plainBody : String)
    (regexResult : String × String) : String × String × Option String :=
  match g with
  | some r =>
    if r.error = none then
      let companyName := if r.company = "" then MANUAL_REVIEW_NEEDED else r.company
      let jobTitle := if r.title = "" then MANUAL_REVIEW_NEEDED else r.title
      let s0 := if r.status ≠ "" ∧ r.status ≠ "undefined" then r.status else UPDATE_OTHER
      let s1 :=
        if s0 = UPDATE_OTHER ∨ s0 = MANUAL_REVIEW_NEEDED then
          match parseBodyForStatus plainBody with
          | some k => k
          | none => s0
        else s0
      (companyName, jobTitle, some s1)
    else (regexResult.1, regexResult.2, parseBodyForStatus plainBody)
  | none => (regexResult.1, regexResult.2, parseBodyForStatus plainBody)

structure UpdateInfo where
  row : Int
  values : TrackedRow
  newStatus : String
  newPeakStatus : String
  company : String
deriving Repr, DecidableEq

structure HandlerResult where
  updateInfo : Option UpdateInfo
  newRowData : Option TrackedRow
  requiresManualReview : Bool
deriving Repr, DecidableEq

/-- The row-matching step of _trackerDataHandler (Main.js lines 342-353):
no lookup at all when the company is the sentinel; otherwise prefer the
case-insensitive title match, then the highest-row entry of the bucket. -/
def findExistingRow (companyIndex : String → List IndexEntry)
    (companyName jobTitle : String) : Option IndexEntry :=
  if companyName = MANUAL_REVIEW_NEEDED then none
  else
    let potentialMatches := companyIndex (jsToLower companyName)
    let byTitle :=
      if jobTitle = MANUAL_REVIEW_NEEDED then none
      else potentialMatches.find? (fun e => e.title ≠ "" ∧ jsToLower e.title = jsToLower jobTitle)
    match byTitle with
    | some e => some e
    | none => if potentialMatches.isEmpty then none else some (maxByRow potentialMatches)

/-- _trackerDataHandler (Main.js lines 293-407). The regex fallback result and
the companyIndex are parameters; the body-keyword detector is the embedded
parseBodyForStatus. -/
def trackerDataHandler (g : Option GRec) (msg : MsgInfo)
    (regexResult : String × String) (companyIndex : String → List IndexEntry) :
    HandlerResult :=
  let resolved := trackerResolve g msg.plainBody regexResult
  let companyName := resolved.1
  let jobTitle := resolved.2.1
  let applicationStatus := resolved.2.2
  let requiresManualReview :=
    companyName = MANUAL_REVIEW_NEEDED ∨ jobTitle = MANUAL_REVIEW_NEEDED
  let finalStatusToSet := applicationStatus.getD DEFAULT_STATUS
  match findExistingRow companyIndex companyName jobTitle with
  | some e =>
    if e.row = -1 then
      { updateInfo := none,
        newRowData := some (appendedRow msg companyName jobTitle finalStatusToSet),
        requiresManualReview := decide requiresManualReview }
    else
      let updated := updateExistingRow e.rowData e.peakStatus msg finalStatusToSet
      { updateInfo := some { row := e.row, values := updated, newStatus := updated.status,
                             newPeakStatus := updated.peakStatus, company := updated.company },
        newRowData := none,
        requiresManualReview := decide requiresManualReview }
  | none =>
    { updateInfo := none,
      newRowData := some (appendedRow msg companyName jobTitle finalStatusToSet),
      requiresManualReview := decide requiresManualReview }

/-- The cache refresh _processingEngine performs after an update decision
(Main.js lines 240-245): in the bucket keyed by the written company, the entry
whose row matches gets its cached status and peakStatus overwritten with the
just-computed values. The entry's rowData is NOT refreshed there, so a later
merge to the same row in the same run reads the stale sheet snapshot for the
cells and the fresh cache for the peak comparison. -/
def refreshCacheEntry (u : UpdateInfo) (e : IndexEntry) : IndexEntry :=
  if e.row = u.row then { e with status := u.newStatus, peakStatus := u.newPeakStatus }
  else e

def refreshCache (idx : String → List IndexEntry) (u : UpdateInfo) :
    String → List IndexEntry :=
  fun k => if k = jsToLower u.company then (idx k).map (refreshCacheEntry u) else idx k

def doneOutcome : String := "done"
def manualOutcome : String := "manual"

/-- The per-message outcome recorded by _processingEngine (Main.js line 255). -/
def msgOutcomeMain (requiresManualReview : Bool) : String :=
  if requiresManualReview then manualOutcome else doneOutcome

/-- The terminal label applyFinalLabels picks for a thread outcome
(part_001 line 627). -/
def targetLabelName (outcome doneName manualName : String) : String :=
  if outcome = manualOutcome then manualName else doneName

/-- What the inner JSON parse of one 200-response candidate text yields in
callGemini_forApplicationDetails (part_000 lines 99-117), with the JSON
library abstracted into the input: a parse exception, a well-formed object
missing a required key, or the three fields (empty string models a falsy
value, mapped through || MANUAL_REVIEW_NEEDED). -/
inductive InnerJson where
  | parseError
  | keysMissing
  | fields (company title status : String)
deriving Repr, DecidableEq

/-- The candidate part of a 200 response (part_000 lines 92-121): either no
parsable text (unexpected structure) or a text whose fence-stripped parse is
given. -/
inductive CandOutcome where
  | noText
  | text (inner : InnerJson)
deriving Repr, DecidableEq

/-- The result of one UrlFetchApp attempt (part_000 lines 86-136). A thrown
envelope JSON.parse lands in the same catch as a fetch exception, so both are
exn. -/
inductive FetchOutcome where
  | exn (e : String)
  | ok200 (cand : CandOutcome)
  | rate429
  | httpErr (code : Int)
deriving Repr, DecidableEq

/-- What callGemini_forApplicationDetails returns to its caller: null, an
error-tagged object, or a record of the three fields. -/
inductive GeminiReturn where
  | nullRes
  | errorRes (e : String)
  | record (company title status : String)
deriving Repr, DecidableEq

def orSentinel (s : String) : String := if s = "" then MANUAL_REVIEW_NEEDED else s

def failAfterMaxAttempts : String := "Failed after 2 attempts."

/-- The retry loop of callGemini_forApplicationDetails (part_000 lines 81-140)
over a schedule of fetch outcomes; attemptsLeft starts at maxAttempts = 2.
Every exit path is a return value, never a raise: exceptions and 429s retry
while attempts remain and then yield an error object or null; a 200 with
unexpected structure or a non-429 HTTP error yields null; an unparseable or
key-missing candidate JSON yields the sentinel-filled record. -/
def callGeminiModel : Nat → List FetchOutcome → GeminiReturn
  | 0, _ => GeminiReturn.errorRes failAfterMaxAttempts
  | _ + 1, [] => GeminiReturn.errorRes failAfterMaxAttempts
  | n + 1, o :: rest =>
    match o with
    | FetchOutcome.exn e =>
      if n = 0 then GeminiReturn.errorRes e else callGeminiModel n rest
    | FetchOutcome.ok200 CandOutcome.noText => GeminiReturn.nullRes
    | FetchOutcome.ok200 (CandOutcome.text InnerJson.parseError) =>
      GeminiReturn.record MANUAL_REVIEW_NEEDED MANUAL_REVIEW_NEEDED MANUAL_REVIEW_NEEDED
    | FetchOutcome.ok200 (CandOutcome.text InnerJson.keysMissing) =>
      GeminiReturn.record MANUAL_REVIEW_NEEDED MANUAL_REVIEW_NEEDED MANUAL_REVIEW_NEEDED
    | FetchOutcome.ok200 (CandOutcome.text (InnerJson.fields c t s)) =>
      GeminiReturn.record (orSentinel c) (orSentinel t) (orSentinel s)
    | FetchOutcome.rate429 =>
      if n = 0 then GeminiReturn.nullRes else callGeminiModel n rest
    | FetchOutcome.httpErr _ => GeminiReturn.nullRes

def geminiMaxAttempts : Nat := 2

/-- The value _trackerDataHandler receives as geminiResult. -/
def geminiReturnToHandler : GeminiReturn → Option GRec
  | GeminiReturn.nullRes => none
  | GeminiReturn.errorRes e => some { company := "", title := "", status := "", error := some e }
  | GeminiReturn.record c t s => some { company := c, title := t, status := s, error := none }

/-- The branch condition of Main.js line 310: the regex fallback chain
extractCompanyAndTitle runs exactly when geminiResult is null or error-tagged. -/
def usesFallbackChain : Option GRec → Bool
  | none => true
  | some r => r.error.isSome

/-- True on the returns the caller treats as a failed extraction. -/
def isNoResult : GeminiReturn → Bool
  | GeminiReturn.nullRes => true
  | GeminiReturn.errorRes _ => true
  | GeminiReturn.record _ _ _ => false

/-- The threadProcessingOutcomes object, modelled as a map from thread id. -/
def OutcomeMap : Type := String → Option String

def emptyOutcomes : OutcomeMap := fun _ => none

def setOutcome (os : OutcomeMap) (tid v : String) : OutcomeMap :=
  fun k => if k = tid then some v else os k

/-- The outcome write of _processingEngine (Main.js line 255): unconditional
assignment, the latest message of a thread wins. -/
def updateOutcomeMain (os : OutcomeMap) (tid : String) (requiresManualReview : Bool) :
    OutcomeMap :=
  setOutcome os tid (msgOutcomeMain requiresManualReview)

/-- The outcome write of the template engine (part_001 lines 1101-1107):
assign only when the thread has no outcome yet or its outcome is done. -/
def updateOutcomeTemplate (os : OutcomeMap) (tid v : String) : OutcomeMap :=
  match os tid with
  | none => setOutcome os tid v
  | some w => if w = doneOutcome then setOutcome os tid v else os

def applyTemplateUpdates (os : OutcomeMap) : List (String × String) → OutcomeMap
  | [] => os
  | u :: us => applyTemplateUpdates (updateOutcomeTemplate os u.1 u.2) us

/-- A Gmail message as the engines read it. -/
structure EngineMsg where
  id : String
  threadId : String
  date : Int
deriving Repr, DecidableEq

/-- A Gmail thread: its id, messages, and current label names. -/
structure GThread where
  id : String
  msgs : List EngineMsg
  labels : List String
deriving Repr, DecidableEq

/-- The gather loop of the template engine (part_001 lines 820-845): every
message of every fetched thread whose id is not in the processed-id set. -/
def gatherNewMessages (threads : List GThread) (existIds : List String) :
    List EngineMsg :=
  (threads.flatMap (fun t => t.msgs)).filter (fun m => !(existIds.contains m.id))

/-- procLbl.getThreads(): the threads currently carrying the label. -/
def threadsWithLabel (name : String) (all : List GThread) : List GThread :=
  all.filter (fun t => t.labels.contains name)

/-- procLbl.getThreads(0, 20) in _processingEngine (Main.js line 211): at most
the first 20 labeled threads. -/
def threadsToProcess (labeled : List GThread) : List GThread := labeled.take 20

/-- The flatMap of _processingEngine line 217 over the capped thread list (the
engine then sorts this list by date, a permutation that does not change which
messages are processed). -/
def engineMessages (labeled : List GThread) : List EngineMsg :=
  (threadsToProcess labeled).flatMap (fun t => t.msgs)

/-- The thread ids the engine records outcomes for (Main.js lines 224-255):
one write per processed message, keyed by its thread id. -/
def engineOutcomeKeys (labeled : List GThread) : List String :=
  (engineMessages labeled).map (fun m => m.threadId)

/-- One label mutation performed by applyFinalLabels. -/
inductive LabelOp where
  | removeL (name : String)
  | addL (name : String)
deriving Repr, DecidableEq

/-- The label mutations applyFinalLabels performs on one thread with the given
current labels (part_001 lines 625-671): remove the processing label only if
present, then add the outcome target label only if absent. -/
def labelOpsForThread (outcome procName doneName manualName : String)
    (current : List String) : List LabelOp :=
  let target := targetLabelName outcome doneName manualName
  (if current.contains procName then [LabelOp.removeL procName] else []) ++
  (if current.contains target then [] else [LabelOp.addL target])

-- Concrete sample values used by the witness theorems.

def emptyString : String := ""

def tid1 : String := "t1"

def procLabelName : String := "CareerSuite.AI/To Process"

def processedLabelName : String := "CareerSuite.AI/Processed"

def manualLabelName : String := "CareerSuite.AI/Manual Review"

def sampleMsg : MsgInfo :=
  { msgId := "m1", threadId := tid1, subject := "Interview invitation",
    plainBody := "we would like to schedule an interview", emailDate := 100, now := 200 }

def sampleInterviewRow : TrackedRow :=
  { emptyRow with
      company := "Acme Corp", title := "Backend Engineer",
      status := INTERVIEW_STATUS, peakStatus := INTERVIEW_STATUS,
      lastUpdateDate := some 50 }

def staleAppliedRow : TrackedRow :=
  { emptyRow with
      company := "Acme Corp", title := "Backend Engineer",
      status := DEFAULT_STATUS, peakStatus := DEFAULT_STATUS,
      lastUpdateDate := some 10 }

def invalidDateRow : TrackedRow :=
  { emptyRow with
      company := "Acme Corp", status := DEFAULT_STATUS,
      peakStatus := DEFAULT_STATUS, lastUpdateDate := none }

def sampleGRecNoCompany : GRec :=
  { company := emptyString, title := "Backend Engineer", status := DEFAULT_STATUS,
    error := none }

def emptyIndex : String → List IndexEntry := fun _ => []

def oneEntryIndex : String → List IndexEntry :=
  fun k => if k = "acme corp" then
    [{ row := 2, rowData := sampleInterviewRow, title := sampleInterviewRow.title,
       status := sampleInterviewRow.status, peakStatus := sampleInterviewRow.peakStatus }]
  else []

def doneThreadMsg : EngineMsg := { id := "m1", threadId := tid1, date := 100 }

def doneLabeledThread : GThread :=
  { id := tid1,
    msgs := [doneThreadMsg],
    labels := [processedLabelName] }

def mkThread (i : Nat) : GThread :=
  { id := String.mk [Char.ofNat (65 + i)],
    msgs := [({ id := String.mk [Char.ofNat (97 + i)],
                threadId := String.mk [Char.ofNat (65 + i)], date := 0 } : EngineMsg)],
    labels := [procLabelName] }

def manyThreads : List GThread := (List.range 21).map mkThread

/-- A Gemini result that fully resolves company, title and an unambiguous
Applied status. -/
def appliedGemini : Option GRec :=
  some { company := "Acme Corp", title := "Backend Engineer", status := DEFAULT_STATUS,
         error := none }

def geminiWithStatus (s : String) : Option GRec :=
  some { company := "Acme Corp", title := "Backend Engineer", status := s, error := none }

def dummyUpdateInfo : UpdateInfo :=
  { row := -1, values := emptyRow, newStatus := "", newPeakStatus := "", company := "" }

-- Same-run double-merge scenario for C2: sheet row 2 at Applied/Applied,
-- then one message detected Interview Scheduled and one detected
-- Assessment/Screening merged into it within one run.

def c2AppliedRow : TrackedRow :=
  { emptyRow with
      company := "Acme Corp", title := "Backend Engineer",
      status := DEFAULT_STATUS, peakStatus := DEFAULT_STATUS,
      lastUpdateDate := some 50, emailId := "m0" }

def c2AppliedEntry : IndexEntry :=
  { row := 2, rowData := c2AppliedRow, title := "Backend Engineer",
    status := DEFAULT_STATUS, peakStatus := DEFAULT_STATUS }

def c2Index : String → List IndexEntry :=
  fun k => if k = "acme corp" then [c2AppliedEntry] else []

def c2Msg1 : MsgInfo :=
  { msgId := "m1", threadId := tid1, subject := "Interview update",
    plainBody := "irrelevant", emailDate := 100, now := 200 }

def c2Msg2 : MsgInfo :=
  { msgId := "m2", threadId := tid1, subject := "Assessment update",
    plainBody := "irrelevant", emailDate := 150, now := 210 }

def c2Run1 : HandlerResult :=
  trackerDataHandler (geminiWithStatus INTERVIEW_STATUS) c2Msg1
    (emptyString, emptyString) c2Index

def c2U1 : UpdateInfo := (c2Run1.updateInfo).getD dummyUpdateInfo

/-- The companyIndex as the second message sees it, after the engine refresh
of Main.js 240-245 for the first update. -/
def c2Index2 : String → List IndexEntry := refreshCache c2Index c2U1

def c2Run2 : HandlerResult :=
  trackerDataHandler (geminiWithStatus ASSESSMENT_STATUS) c2Msg2
    (emptyString, emptyString) c2Index2

def c2U2 : UpdateInfo := (c2Run2.updateInfo).getD dummyUpdateInfo

-- Re-run scenario for C3: a thread still carrying the to-process label whose
-- one message id is already recorded in the Email ID column of row 2.

def c3RecordedRow : TrackedRow :=
  { emptyRow with
      company := "Acme Corp", title := "Backend Engineer",
      status := DEFAULT_STATUS, peakStatus := DEFAULT_STATUS,
      lastUpdateDate := some 50, emailId := "m1" }

def c3RecordedEntry : IndexEntry :=
  { row := 2, rowData := c3RecordedRow, title := "Backend Engineer",
    status := DEFAULT_STATUS, peakStatus := DEFAULT_STATUS }

def c3RecordedIndex : String → List IndexEntry :=
  fun k => if k = "acme corp" then [c3RecordedEntry] else []

def c3LabeledThread : GThread :=
  { id := tid1, msgs := [doneThreadMsg], labels := [procLabelName] }

-- Two-message thread scenario for C4: a sentinel-company message followed by a
-- fully resolved message of the same thread.

def c4Msg2 : MsgInfo :=
  { msgId := "m2", threadId := tid1, subject := "Application received",
    plainBody := "irrelevant", emailDate := 150, now := 210 }

def c4SentinelResult : HandlerResult :=
  trackerDataHandler (some sampleGRecNoCompany) sampleMsg (emptyString, emptyString)
    emptyIndex

def c4ResolvedResult : HandlerResult :=
  trackerDataHandler appliedGemini c4Msg2 (emptyString, emptyString) emptyIndex

/-- The thread outcome after both messages, written the Main.js way (line 255,
unconditional assignment per message). -/
def c4FinalOutcomes : OutcomeMap :=
  updateOutcomeMain
    (updateOutcomeMain emptyOutcomes sampleMsg.threadId c4SentinelResult.requiresManualReview)
    c4Msg2.threadId c4ResolvedResult.requiresManualReview

-- Theorems.

/-- C1: In the reconciliation merge for an existing row, the incoming status
overwrites the current status if and only if rank(newStatus) >=
rank(currentStatus) or the incoming status is Rejected or Offer; in
particular, a row at Interview hit by a detected Rejected becomes Rejected
even though rank(Rejected) < rank(Interview). -/
theorem c1_reconcile_status_override :
    (∀ (row : TrackedRow) (peakCached : String) (msg : MsgInfo) (finalStatusToSet : String),
      (shouldApplyStatus row.status finalStatusToSet →
        (updateExistingRow row peakCached msg finalStatusToSet).status = finalStatusToSet) ∧
      (¬ shouldApplyStatus row.status finalStatusToSet →
        (updateExistingRow row peakCached msg finalStatusToSet).status = row.status)) ∧
    ((updateExistingRow sampleInterviewRow sampleInterviewRow.peakStatus sampleMsg
        REJECTED_STATUS).status = REJECTED_STATUS ∧
      rank REJECTED_STATUS < rank INTERVIEW_STATUS) := by
  refine ⟨?_, by decide, by decide⟩
  intro row pc msg fs
  constructor <;> intro h <;> simp [updateExistingRow, h]

/-- Witness for C1 at a concrete row: the override-terminal Rejected is applied
to a row currently at Interview Scheduled. -/
theorem c1_reconcile_status_override_witness :
    (updateExistingRow sampleInterviewRow sampleInterviewRow.peakStatus sampleMsg
      REJECTED_STATUS).status = REJECTED_STATUS :=
  (c1_reconcile_status_override.1 sampleInterviewRow sampleInterviewRow.peakStatus sampleMsg
    REJECTED_STATUS).1 (by decide)

/-- C5: The stale sweep rewrites status to Rejected and lastUpdateDate to now
for exactly the rows whose status is outside the protected set and whose
lastUpdateDate is older than now minus the threshold; every other row is
unchanged, no row is removed, and peakStatus is never modified. -/
theorem c5_stale_sweep_exact (now : Int) (rows : List TrackedRow) :
    (markStaleApplicationsAsRejected now rows).length = rows.length ∧
    (∀ i : Nat, (markStaleApplicationsAsRejected now rows)[i]? =
      (rows[i]?).map (markStaleRow now (now - WEEKS_THRESHOLD * 7))) ∧
    (∀ row : TrackedRow,
      (staleCondition (now - WEEKS_THRESHOLD * 7) row = true →
        markStaleRow now (now - WEEKS_THRESHOLD * 7) row =
          { row with status := REJECTED_STATUS, lastUpdateDate := some now }) ∧
      (staleCondition (now - WEEKS_THRESHOLD * 7) row = false →
        markStaleRow now (now - WEEKS_THRESHOLD * 7) row = row) ∧
      (markStaleRow now (now - WEEKS_THRESHOLD * 7) row).peakStatus = row.peakStatus) := by
  refine ⟨by simp [markStaleApplicationsAsRejected], ?_, ?_⟩
  · intro i
    simp [markStaleApplicationsAsRejected]
  · intro row
    refine ⟨fun h => ?_, fun h => ?_, ?_⟩
    · simp [markStaleRow, h]
    · simp [markStaleRow, h]
    · unfold markStaleRow
      split <;> simp

/-- Witness for C5: a row at Applied last updated 90 days before now is
rewritten to Rejected with lastUpdateDate set to now. -/
theorem c5_stale_sweep_exact_witness :
    markStaleRow 100 (100 - WEEKS_THRESHOLD * 7) staleAppliedRow =
      { staleAppliedRow with status := REJECTED_STATUS, lastUpdateDate := some 100 } :=
  ((c5_stale_sweep_exact 100 [staleAppliedRow]).2.2 staleAppliedRow).1 (by decide)

/-- C10: A row whose lastUpdateDate cell is empty or does not parse to a valid
date (its NaN comparison with the threshold is false) is never modified by the
stale sweep, whatever its status or age. -/
theorem c10_invalid_date_never_swept (now thr : Int) (row : TrackedRow)
    (h : row.lastUpdateDate = none) : markStaleRow now thr row = row := by
  simp [markStaleRow, staleCondition, h]

/-- Witness for C10: a row with an empty date cell survives the sweep. -/
theorem c10_invalid_date_never_swept_witness :
    markStaleRow 100 51 invalidDateRow = invalidDateRow :=
  c10_invalid_date_never_swept 100 51 invalidDateRow (by decide)

/-- C3 counterexample: the Main.js generic engine has no processed-id check.
A thread still carrying the to-process label has its message processed even
though that message id is already recorded in the Email ID column of row 2,
and the handler emits a row mutation for it (an update targeting row 2 that
rewrites the administrative cells). -/
theorem c3_main_engine_reprocesses_recorded_message :
    c3RecordedRow.emailId = sampleMsg.msgId ∧
    doneThreadMsg ∈ engineMessages [c3LabeledThread] ∧
    (trackerDataHandler appliedGemini sampleMsg (emptyString, emptyString)
      c3RecordedIndex).updateInfo.isSome = true ∧
    ((trackerDataHandler appliedGemini sampleMsg (emptyString, emptyString)
        c3RecordedIndex).updateInfo.map
      (fun u => (u.row, u.values.processedTimestamp))) = some (2, some 200) := by
  refine ⟨by decide, by decide, by decide, by decide⟩

/-- C3 amended: in the template engine (part_001) a message whose id is in the
processed-id set is filtered out at gather time, so no row mutation is
attributed to it; a thread no longer carrying the to-process label is not
fetched at all, and the label step on a thread already carrying its terminal
label and lacking the to-process label performs no mutation. The Main.js
generic engine has no such id filter (see the counterexample). -/
theorem c3_processed_message_idempotent
    (threads : List GThread) (existIds : List String) (m : EngineMsg) (t : GThread)
    (outcome procName doneName manualName : String)
    (hm : existIds.contains m.id = true)
    (hproc : t.labels.contains procName = false)
    (hterm : t.labels.contains (targetLabelName outcome doneName manualName) = true) :
    m ∉ gatherNewMessages threads existIds ∧
    t ∉ threadsWithLabel procName threads ∧
    labelOpsForThread outcome procName doneName manualName t.labels = [] := by
  refine ⟨fun hmem => ?_, fun hmem => ?_, ?_⟩
  · rw [gatherNewMessages, List.mem_filter, hm] at hmem
    simp at hmem
  · rw [threadsWithLabel, List.mem_filter, hproc] at hmem
    simp at hmem
  · simp at hproc hterm
    simp [labelOpsForThread, hproc, hterm]

/-- Witness for C3: the one-message thread already labeled Processed, with its
message id recorded, yields no gather entry, no fetch, and no label ops. -/
theorem c3_processed_message_idempotent_witness :
    labelOpsForThread doneOutcome procLabelName processedLabelName manualLabelName
      doneLabeledThread.labels = [] :=
  (c3_processed_message_idempotent [doneLabeledThread] [doneThreadMsg.id] doneThreadMsg
    doneLabeledThread doneOutcome procLabelName processedLabelName manualLabelName
    (by decide) (by decide) (by decide)).2.2

/-- C9: One engine invocation pulls at most the first 20 labeled threads;
messages of any thread past the cap are not among the processed messages and
its id is not among the thread ids the engine records outcomes (and hence
label transitions) for, so it stays eligible for the next run. -/
theorem c9_thread_fetch_cap (labeled : List GThread)
    (hnodup : (labeled.map GThread.id).Nodup)
    (hwf : ∀ t ∈ labeled, ∀ m ∈ t.msgs, m.threadId = t.id) :
    (threadsToProcess labeled).length ≤ 20 ∧
    ∀ t ∈ labeled.drop 20,
      (∀ m ∈ t.msgs, m ∉ engineMessages labeled) ∧
      t.id ∉ engineOutcomeKeys labeled := by
  constructor
  · simp [threadsToProcess]
  · intro t ht
    have hsplit : labeled.map GThread.id =
        (labeled.take 20).map GThread.id ++ (labeled.drop 20).map GThread.id := by
      rw [← List.map_append, List.take_append_drop]
    rw [hsplit, List.nodup_append] at hnodup
    have hid : t.id ∉ (labeled.take 20).map GThread.id := by
      intro hc
      exact hnodup.2.2 hc (List.mem_map_of_mem GThread.id ht)
    have key : ∀ m ∈ engineMessages labeled, m.threadId ∈ (labeled.take 20).map GThread.id := by
      intro m hm
      rw [engineMessages, threadsToProcess, List.mem_flatMap] at hm
      rcases hm with ⟨u, hu, hmu⟩
      rw [hwf u (List.mem_of_mem_take hu) m hmu]
      exact List.mem_map_of_mem GThread.id hu
    refine ⟨fun m hm hmem => ?_, fun hkey => ?_⟩
    · apply hid
      rw [← hwf t (List.mem_of_mem_drop ht) m hm]
      exact key m hmem
    · rw [engineOutcomeKeys, List.mem_map] at hkey
      rcases hkey with ⟨m, hm, hmt⟩
      exact hid (hmt ▸ key m hm)

/-- Witness for C9: with 21 labeled threads, the 21st is untouched. -/
theorem c9_thread_fetch_cap_witness :
    (∀ m ∈ (mkThread 20).msgs, m ∉ engineMessages manyThreads) ∧
    (mkThread 20).id ∉ engineOutcomeKeys manyThreads :=
  (c9_thread_fetch_cap manyThreads (by decide) (by decide)).2 (mkThread 20) (by decide)

/-- C6: The status detector checks the four keyword lists in the fixed
precedence order acceptance, interview, assessment, rejection, returns the
status of the first list containing a matching phrase, and returns null, not a
default, when no keyword of any list matches a usable body. -/
theorem c6_status_detector_precedence (body : String) :
    parseBodyForStatus body =
      (if body.length < 10 then none else firstMatchingStatus (normalizeBody body)) ∧
    (¬ body.length < 10 →
      (∀ p ∈ orderedKeywordLists, ∀ kw ∈ p.1, keywordHit (normalizeBody body) kw = false) →
      parseBodyForStatus body = none) := by
  constructor
  · by_cases hlen : body.length < 10
    · simp [parseBodyForStatus, hlen]
    · cases hA : ACCEPTANCE_KEYWORDS.any (keywordHit (normalizeBody body)) <;>
        cases hI : INTERVIEW_KEYWORDS.any (keywordHit (normalizeBody body)) <;>
          cases hS : ASSESSMENT_KEYWORDS.any (keywordHit (normalizeBody body)) <;>
            cases hR : REJECTION_KEYWORDS.any (keywordHit (normalizeBody body)) <;>
              simp [parseBodyForStatus, firstMatchingStatus, orderedKeywordLists,
                List.find?, hlen, hA, hI, hS, hR]
  · intro hlen hnone
    have hA : ACCEPTANCE_KEYWORDS.any (keywordHit (normalizeBody body)) = false := by
      rw [List.any_eq_false]
      intro kw hkw
      simp [hnone (ACCEPTANCE_KEYWORDS, ACCEPTED_STATUS) (by simp [orderedKeywordLists]) kw hkw]
    have hI : INTERVIEW_KEYWORDS.any (keywordHit (normalizeBody body)) = false := by
      rw [List.any_eq_false]
      intro kw hkw
      simp [hnone (INTERVIEW_KEYWORDS, INTERVIEW_STATUS) (by simp [orderedKeywordLists]) kw hkw]
    have hS : ASSESSMENT_KEYWORDS.any (keywordHit (normalizeBody body)) = false := by
      rw [List.any_eq_false]
      intro kw hkw
      simp [hnone (ASSESSMENT_KEYWORDS, ASSESSMENT_STATUS) (by simp [orderedKeywordLists]) kw hkw]
    have hR : REJECTION_KEYWORDS.any (keywordHit (normalizeBody body)) = false := by
      rw [List.any_eq_false]
      intro kw hkw
      simp [hnone (REJECTION_KEYWORDS, REJECTED_STATUS) (by simp [orderedKeywordLists]) kw hkw]
    simp [parseBodyForStatus, hlen, hA, hI, hS, hR]

/-- Witness for C6 at a concrete body containing an interview keyword. -/
theorem c6_status_detector_precedence_witness :
    parseBodyForStatus sampleMsg.plainBody =
      (if sampleMsg.plainBody.length < 10 then none
       else firstMatchingStatus (normalizeBody sampleMsg.plainBody)) :=
  (c6_status_detector_precedence sampleMsg.plainBody).1

/-- C7 counterexample: in the Main.js generic engine the outcome write is an
unconditional assignment, so a thread downgraded to manual by one message is
reverted to done by a later message that needs no review. -/
theorem c7_main_engine_outcome_reverts :
    updateOutcomeMain (updateOutcomeMain emptyOutcomes tid1 true) tid1 false tid1 =
      some doneOutcome ∧ doneOutcome ≠ manualOutcome := by
  constructor
  · decide
  · decide

/-- In the template engine a thread outcome of manual survives any later
outcome write, for any thread id. -/
theorem template_outcome_preserves_manual (os : OutcomeMap) (a v tid : String)
    (h : os tid = some manualOutcome) :
    updateOutcomeTemplate os a v tid = some manualOutcome := by
  by_cases hat : a = tid
  · subst hat
    rw [updateOutcomeTemplate, h]
    have hne : manualOutcome ≠ doneOutcome := by decide
    simp [hne, h]
  · rw [updateOutcomeTemplate]
    have hta : tid ≠ a := fun hc => hat hc.symm
    cases hos : os a with
    | none => simp [setOutcome, hta, h]
    | some w =>
      by_cases hw : w = doneOutcome
      · simp [hw, setOutcome, hta, h]
      · simp [hw, h]

/-- C7 amended: in the template engine (part_001) a thread outcome starts at
the first message outcome and, once manual, is never reverted by later
messages of the run; in the Main.js generic engine the recorded outcome is
simply that of the last processed message of the thread. -/
theorem c7_thread_outcome_downgrade :
    (∀ (os : OutcomeMap) (tid v : String), os tid = some manualOutcome →
      updateOutcomeTemplate os tid v tid = some manualOutcome) ∧
    (∀ (os : OutcomeMap) (ups : List (String × String)) (tid : String),
      os tid = some manualOutcome →
      applyTemplateUpdates os ups tid = some manualOutcome) ∧
    (∀ (os : OutcomeMap) (tid v : String), os tid = none →
      updateOutcomeTemplate os tid v tid = some v) ∧
    (∀ (os : OutcomeMap) (tid : String) (req : Bool),
      updateOutcomeMain os tid req tid = some (msgOutcomeMain req)) := by
  refine ⟨fun os tid v h => template_outcome_preserves_manual os tid v tid h, ?_, ?_, ?_⟩
  · intro os ups
    induction ups generalizing os with
    | nil =>
      intro tid h
      simpa [applyTemplateUpdates] using h
    | cons u us ih =>
      intro tid h
      rw [applyTemplateUpdates]
      exact ih _ tid (template_outcome_preserves_manual os u.1 u.2 tid h)
  · intro os tid v h
    rw [updateOutcomeTemplate, h]
    simp [setOutcome]
  · intro os tid req
    simp [updateOutcomeMain, setOutcome]

/-- Witness for C7: a thread already at manual stays manual through a later
done write in the template engine. -/
theorem c7_thread_outcome_downgrade_witness :
    applyTemplateUpdates (setOutcome emptyOutcomes tid1 manualOutcome)
      [(tid1, doneOutcome)] tid1 = some manualOutcome :=
  c7_thread_outcome_downgrade.2.1 (setOutcome emptyOutcomes tid1 manualOutcome)
    [(tid1, doneOutcome)] tid1 (by decide)

/-- C8 counterexample: a 200 response whose candidate text is unparseable JSON
makes the extractor return the sentinel-filled record with no error tag, and
on such a value the caller does not run the regex fallback chain. -/
theorem c8_parse_failure_skips_fallback :
    callGeminiModel geminiMaxAttempts
        [FetchOutcome.ok200 (CandOutcome.text InnerJson.parseError)] =
      GeminiReturn.record MANUAL_REVIEW_NEEDED MANUAL_REVIEW_NEEDED MANUAL_REVIEW_NEEDED ∧
    usesFallbackChain (geminiReturnToHandler (callGeminiModel geminiMaxAttempts
        [FetchOutcome.ok200 (CandOutcome.text InnerJson.parseError)])) = false := by
  constructor
  · rfl
  · rfl

/-- C8 amended: every extractor failure is non-fatal and yields a return value
(null, an error object, or a sentinel-filled record) rather than a raise; the
caller proceeds to the regex fallback chain exactly when the value is null or
error-tagged, which covers transport exceptions after the retry budget,
rate-limiting past the budget, other HTTP errors and unexpected response
structure, but not unparseable or key-missing candidate JSON. -/
theorem c8_failure_handling :
    (∀ r : GeminiReturn, usesFallbackChain (geminiReturnToHandler r) = isNoResult r) ∧
    (∀ e1 e2 : String, callGeminiModel geminiMaxAttempts
        [FetchOutcome.exn e1, FetchOutcome.exn e2] = GeminiReturn.errorRes e2) ∧
    (callGeminiModel geminiMaxAttempts [FetchOutcome.rate429, FetchOutcome.rate429] =
      GeminiReturn.nullRes) ∧
    (∀ code : Int, callGeminiModel geminiMaxAttempts [FetchOutcome.httpErr code] =
      GeminiReturn.nullRes) ∧
    (callGeminiModel geminiMaxAttempts [FetchOutcome.ok200 CandOutcome.noText] =
      GeminiReturn.nullRes) ∧
    (callGeminiModel geminiMaxAttempts
        [FetchOutcome.ok200 (CandOutcome.text InnerJson.keysMissing)] =
      GeminiReturn.record MANUAL_REVIEW_NEEDED MANUAL_REVIEW_NEEDED MANUAL_REVIEW_NEEDED) := by
  refine ⟨?_, ?_, by rfl, ?_, by rfl, by rfl⟩
  · intro r
    cases r <;> rfl
  · intro e1 e2
    rfl
  · intro code
    rfl

/-- C4 counterexample: a sentinel-company message flags its thread manual, but
the Main.js outcome write is an unconditional last-wins assignment, so a later
fully resolved message of the same thread ends the thread at done and the
final label applied is the processed label, not the manual-review label. -/
theorem c4_thread_label_overridden_by_later_message :
    c4SentinelResult.requiresManualReview = true ∧
    (c4SentinelResult.newRowData.map TrackedRow.company) = some MANUAL_REVIEW_NEEDED ∧
    c4ResolvedResult.requiresManualReview = false ∧
    c4FinalOutcomes sampleMsg.threadId = some doneOutcome ∧
    targetLabelName doneOutcome processedLabelName manualLabelName = processedLabelName ∧
    processedLabelName ≠ manualLabelName := by
  refine ⟨by decide, by decide, by decide, by decide, by decide, by decide⟩

/-- C4 amended: when company resolution yields the manual-review sentinel the
handler performs no index lookup (its result does not depend on the index),
always appends a new row whose company field is the sentinel, and flags the
message for manual review whatever the title and status resolution; after the
outcome write for this message its thread is at manual, whatever the thread
outcome was before, so the thread ends at the manual-review label whenever
this is the last message of the thread processed in the run (a later resolved
message overrides it, see the counterexample). -/
theorem c4_sentinel_company_always_appends
    (g : Option GRec) (msg : MsgInfo) (regexResult : String × String)
    (idx idx2 : String → List IndexEntry) (doneName manualName : String)
    (h : (trackerResolve g msg.plainBody regexResult).1 = MANUAL_REVIEW_NEEDED) :
    trackerDataHandler g msg regexResult idx = trackerDataHandler g msg regexResult idx2 ∧
    (trackerDataHandler g msg regexResult idx).updateInfo = none ∧
    (trackerDataHandler g msg regexResult idx).newRowData =
      some (appendedRow msg MANUAL_REVIEW_NEEDED
        (trackerResolve g msg.plainBody regexResult).2.1
        (((trackerResolve g msg.plainBody regexResult).2.2).getD DEFAULT_STATUS)) ∧
    ((trackerDataHandler g msg regexResult idx).newRowData.map TrackedRow.company) =
      some MANUAL_REVIEW_NEEDED ∧
    (trackerDataHandler g msg regexResult idx).requiresManualReview = true ∧
    (∀ os : OutcomeMap,
      updateOutcomeMain os msg.threadId
        (trackerDataHandler g msg regexResult idx).requiresManualReview msg.threadId =
        some manualOutcome) ∧
    targetLabelName manualOutcome doneName manualName = manualName := by
  have hfind : ∀ (j : String → List IndexEntry) (t : String),
      findExistingRow j MANUAL_REVIEW_NEEDED t = none := by
    intro j t
    rw [findExistingRow, if_pos rfl]
  have hreq : (trackerDataHandler g msg regexResult idx).requiresManualReview = true := by
    simp [trackerDataHandler, hfind, h]
  refine ⟨?_, ?_, ?_, ?_, hreq, ?_, ?_⟩
  · simp [trackerDataHandler, hfind, h]
  · simp [trackerDataHandler, hfind, h]
  · simp [trackerDataHandler, hfind, h]
  · simp [trackerDataHandler, hfind, h, appendedRow]
  · intro os
    rw [hreq]
    simp [updateOutcomeMain, setOutcome, msgOutcomeMain]
  · simp [targetLabelName]

/-- Witness for C4: a Gemini result with an empty company field resolves to the
sentinel and forces the append-with-manual-review outcome. -/
theorem c4_sentinel_company_always_appends_witness :
    (trackerDataHandler (some sampleGRecNoCompany) sampleMsg (emptyString, emptyString)
      emptyIndex).requiresManualReview = true :=
  (c4_sentinel_company_always_appends (some sampleGRecNoCompany) sampleMsg
    (emptyString, emptyString) emptyIndex oneEntryIndex processedLabelName manualLabelName
    (by decide)).2.2.2.2.1

/-- C2: the code breaks the peak invariant. Main.js 241-245 refresh only the
cached status and peakStatus of a companyIndex entry, never its rowData, so
the second same-run merge to a row reads the stale status cell from rowData
and the fresh peak from the cache. At this input (row 2 at Applied/Applied,
merge Interview Scheduled then Assessment/Screening), the first update writes
(Interview Scheduled, Interview Scheduled); the second writes status
Assessment/Screening but its peak test compares against the cached Interview
rank and fails, keeping the stale Applied peak cell. The batched writes of
Main.js 259 apply in push order, so the row ends at status
Assessment/Screening with peakStatus Applied: rank(peakStatus) < rank(status)
and the written peak rank decreased from Interview to Applied. -/
theorem c2_same_run_double_merge_breaks_peak :
    c2Run1.updateInfo = some c2U1 ∧
    c2Run2.updateInfo = some c2U2 ∧
    c2U1.values.status = INTERVIEW_STATUS ∧
    c2U1.values.peakStatus = INTERVIEW_STATUS ∧
    c2U2.values.status = ASSESSMENT_STATUS ∧
    c2U2.values.peakStatus = DEFAULT_STATUS ∧
    rank c2U2.values.peakStatus < rank c2U2.values.status ∧
    rank c2U2.values.peakStatus < rank c2U1.values.peakStatus := by
  refine ⟨by decide, by decide, by decide, by decide, by decide, by decide,
    by decide, by decide⟩

end CareerSuite
